import Mathlib

/-!
Verification of the video ingestion-and-publish pipeline of
`learn-file-storage-s3-golang-starter` (file `handler_upload_video.go`).

The Go handler is embedded shallowly: every external collaborator
(UUID parsing, JWT validation, the metadata store, the multipart form,
temp-file creation, ffprobe, ffmpeg, the object store) is represented by
the outcome it produces for the request, collected in an `Env` record.
The handler itself is a pure function from the configuration and that
environment to an `Outcome`: the HTTP response, the ordered list of
side-effect events the request performed, and the temporary files still
on disk when the request's processing ends (after all deferred removals
have run).

`float32` arithmetic in `getVideoAspectRatio` is idealized as exact
rational arithmetic; division by zero follows IEEE-754 and yields
`+inf`, `-inf` or `NaN`, which the embedding represents explicitly.
-/

namespace Tubely

/-- A video record of the metadata store (`database.Video`): identifier,
owning user, nullable video-location URL, nullable thumbnail URL. -/
structure Video where
  id : Nat
  userID : Nat
  videoURL : Option String
  thumbnailURL : Option String
deriving DecidableEq

/-- One entry of ffprobe's `streams` JSON array, as unmarshalled by
`getVideoAspectRatio` (missing `width`/`height` fields default to 0). -/
structure StreamDim where
  width : Int
  height : Int
deriving DecidableEq

/-- Idealized value of the `float32` quotient `width / height`:
a finite rational, or one of the IEEE-754 non-finite values produced by
dividing by zero. -/
inductive FVal where
  | fin (q : ℚ)
  | pinf
  | ninf
  | nan
deriving DecidableEq

/-- IEEE-754 comparison `q < v` against a possibly non-finite value:
every comparison involving NaN is false. -/
def qLtF (q : ℚ) : FVal → Bool
  | .fin r => decide (q < r)
  | .pinf => true
  | .ninf => false
  | .nan => false

/-- IEEE-754 comparison `v < q` against a possibly non-finite value:
every comparison involving NaN is false. -/
def fLtQ : FVal → ℚ → Bool
  | .fin r, q => decide (r < q)
  | .pinf, _ => false
  | .ninf, _ => true
  | .nan, _ => false

/-- `float32(width) / float32(height)` (source line 189), idealized:
finite quotients are exact rationals; a zero divisor yields `+inf`,
`-inf` or `NaN` by the sign of the numerator, as IEEE-754 prescribes. -/
def f32Div (w h : Int) : FVal :=
  if h ≠ 0 then .fin ((w : ℚ) / (h : ℚ))
  else if 0 < w then .pinf
  else if w < 0 then .ninf
  else .nan

/-- The aspect-ratio classification of `getVideoAspectRatio`
(source lines 188-196): `1.77 < ratio && ratio < 1.78` gives `"16:9"`
(the landscape category), `0.56 < ratio && ratio < 0.57` gives `"9:16"`
(the portrait category), everything else gives `"other"`. -/
def classifyAspect (w h : Int) : String :=
  let aspectRatio := f32Div w h
  if qLtF (177/100) aspectRatio && fLtQ aspectRatio (178/100) then "16:9"
  else if qLtF (56/100) aspectRatio && fLtQ aspectRatio (57/100) then "9:16"
  else "other"

/-- Outcome of running ffprobe on the staged file: the subprocess fails
to run or exits non-zero (`runFail`, source line 165), its stdout fails
to unmarshal (`badOutput`, line 178), or a parsed list of streams. -/
inductive ProbeOutcome where
  | runFail
  | badOutput
  | streams (l : List StreamDim)
deriving DecidableEq

/-- The error cases of `getVideoAspectRatio`: the `cmd.Run()` error, the
`json.Unmarshal` error, or the `"no video streams found"` error. -/
inductive ProbeErr where
  | execErr
  | unmarshalErr
  | noStreams
deriving DecidableEq

/-- `getVideoAspectRatio` (source lines 160-197), with the subprocess
and JSON decoding abstracted into a `ProbeOutcome`: errors are returned
as-is; otherwise the first stream's width and height are classified. -/
def getVideoAspectRatio : ProbeOutcome → Except ProbeErr String
  | .runFail => .error .execErr
  | .badOutput => .error .unmarshalErr
  | .streams [] => .error .noStreams
  | .streams (s :: _) => .ok (classifyAspect s.width s.height)

/-- One sextet of the URL-safe base64 alphabet `A-Z a-z 0-9 - _`. -/
def b64Char (n : Nat) : Char :=
  if n < 26 then Char.ofNat (65 + n)
  else if n < 52 then Char.ofNat (97 + (n - 26))
  else if n < 62 then Char.ofNat (48 + (n - 52))
  else if n = 62 then '-'
  else '_'

/-- Characters of `base64.RawURLEncoding.EncodeToString`: groups of
three bytes become four sextets; a trailing group of one or two bytes
becomes two or three sextets, with no padding. -/
def b64Chars : List Nat → List Char
  | [] => []
  | [a] => [b64Char (a / 4), b64Char (a % 4 * 16)]
  | [a, b] => [b64Char (a / 4), b64Char (a % 4 * 16 + b / 16), b64Char (b % 16 * 4)]
  | a :: b :: c :: rest =>
      b64Char (a / 4) :: b64Char (a % 4 * 16 + b / 16) ::
      b64Char (b % 16 * 4 + c / 64) :: b64Char (c % 64) :: b64Chars rest

/-- `base64.RawURLEncoding.EncodeToString` over a byte list. -/
def base64RawURLEncode (bs : List Nat) : String := ⟨b64Chars bs⟩

/-- `fileExt` (source line 76). -/
def fileExt : String := "mp4"

/-- The object-name switch of the handler (source lines 122-133): the
classification picks the path segment, the 32 random bytes are base64
URL-safe encoded, and the fixed extension is appended. -/
def deriveObjectName (aspectRatio : String) (key : List Nat) : String :=
  if aspectRatio = "16:9" then "landscape/" ++ base64RawURLEncode key ++ "." ++ fileExt
  else if aspectRatio = "9:16" then "portrait/" ++ base64RawURLEncode key ++ "." ++ fileExt
  else "other/" ++ base64RawURLEncode key ++ "." ++ fileExt

/-- `processVideoForFastStart` output path (source line 201). -/
def processedPath (filePath : String) : String := filePath ++ ".processing"

/-- `maxMemory` (source line 23): the comment claims 1 GB (`1 << 30`)
but the constant is `10 << 30`; moreover the `http.MaxBytesReader`
return value on line 24 is discarded, so the constant is never used to
limit anything. -/
def maxMemory : Nat := 10 <<< 30

/-- The distinct failure branches of the handler, one per
`respondWithError` call site, plus `payloadTooLarge`, the spec's
`PayloadTooLarge` class, for which no call site exists in the code. -/
inductive Err where
  | invalidVideoID      -- 400 "Invalid ID" (line 30)
  | missingJWT          -- 401 "Couldn't find JWT" (line 37)
  | invalidJWT          -- 401 "Couldn't validate JWT" (line 42)
  | videoLookupFailed   -- 401 "Couldn't get video" (line 49)
  | notOwner            -- 401 "Video not owned by user" (line 53); the spec's Forbidden
  | formFileMissing     -- 400 "Couldn't get video file from form" (line 61)
  | mediaTypeUnparsable -- 400 "Couldn't parse media type" (line 69)
  | invalidFileType     -- 400 "Invalid file type" (line 73); the spec's UnsupportedMediaType
  | tempCreateFailed    -- 500 "Couldn't create temp dir" (line 81)
  | copyFailed          -- 500 "Couldn't copy file" (line 88)
  | seekFailed          -- 500 "Couldn't seek file" (line 95)
  | probeFailed         -- 500 "Couldn't get video aspect ratio" (line 102); the spec's ProbeFailed
  | remuxFailed         -- 500 "Couldn't process video for fast start" (line 109); the spec's RemuxFailed
  | openProcessedFailed -- 500 "Couldn't open processed video file" (line 117)
  | uploadFailed        -- 500 "Couldn't upload to S3" (line 144); the spec's UploadFailed
  | updateFailed        -- 500 "Couldn't update video URL in database" (line 153); the spec's MetadataUpdateFailed
  | payloadTooLarge     -- spec taxonomy only: the code has no such branch
deriving DecidableEq

/-- The HTTP status each failure branch responds with, read off the
`respondWithError` call sites; `payloadTooLarge` is given 413, the
status the spec's class would use, since the code never produces it. -/
def httpStatus : Err → Nat
  | .invalidVideoID => 400
  | .missingJWT => 401
  | .invalidJWT => 401
  | .videoLookupFailed => 401
  | .notOwner => 401
  | .formFileMissing => 400
  | .mediaTypeUnparsable => 400
  | .invalidFileType => 400
  | .tempCreateFailed => 500
  | .copyFailed => 500
  | .seekFailed => 500
  | .probeFailed => 500
  | .remuxFailed => 500
  | .openProcessedFailed => 500
  | .uploadFailed => 500
  | .updateFailed => 500
  | .payloadTooLarge => 413

/-- Whether an error is the spec's `PayloadTooLarge` class. -/
def isPayloadTooLargeErr : Err → Bool
  | .payloadTooLarge => true
  | _ => false

/-- The side effects a request performs, in program order: temp-file
creation, the two subprocess invocations, the object-store put
(successful or failed), and the metadata-store update call. -/
inductive Event where
  | tempCreate (path : String)
  | ffprobeRun (path : String)
  | ffmpegRun (inputPath outputPath : String)
  | s3PutOk (bucket key : String)
  | s3PutFail (bucket key : String)
  | dbUpdate (v : Video)
deriving DecidableEq

/-- The handler's HTTP response: the updated record on success
(`respondWithJSON(200, dbVideo)`, line 157), or one failure branch. -/
inductive Response where
  | ok (v : Video)
  | err (e : Err)
deriving DecidableEq

/-- Whether a response is a `PayloadTooLarge` rejection. -/
def isPayloadTooLargeResp : Response → Bool
  | .err .payloadTooLarge => true
  | _ => false

/-- What a single request left behind: its response, its ordered event
trace, and the temporary files still on disk after every deferred
removal bound to the request has run. -/
structure Outcome where
  response : Response
  events : List Event
  filesLeft : List String
deriving DecidableEq

/-- The handler configuration fields the upload path reads. -/
structure ApiConfig where
  s3Bucket : String
  s3Region : String

/-- Outcomes of every external call the handler makes, in source order.
`bodySize` is the size of the inbound byte stream; the source discards
the `http.MaxBytesReader` return value (line 24), so nothing ever reads
it. `ffmpegPartialOnFail` records whether a failed ffmpeg run left a
partial output file behind. -/
structure Env where
  parsedVideoID : Option Nat          -- uuid.Parse (line 28)
  bearerToken : Option String         -- auth.GetBearerToken (line 35)
  jwtUserID : Option Nat              -- auth.ValidateJWT (line 40)
  dbVideo : Option Video              -- cfg.db.GetVideo (line 47)
  bodySize : Nat                      -- inbound stream size (never consulted)
  contentTypeHeader : Option String   -- r.FormFile("video") (line 59)
  parsedMediaType : Option String     -- mime.ParseMediaType (line 67)
  tempPath : Option String            -- os.CreateTemp (line 79)
  copyOk : Bool                       -- io.Copy (line 86)
  seekOk : Bool                       -- tmpFile.Seek (line 93)
  probe : ProbeOutcome                -- ffprobe subprocess + JSON decode
  ffmpegOk : Bool                     -- ffmpeg subprocess (line 203)
  ffmpegPartialOnFail : Bool          -- failed ffmpeg left partial output
  openProcessedOk : Bool              -- os.Open(processedFilePath) (line 115)
  randBytes : List Nat                -- crypto/rand.Read 32 bytes (line 124)
  putObjectOk : Bool                  -- s3Client.PutObject (line 137)
  updateOk : Bool                     -- cfg.db.UpdateVideo (line 151)

/-- The ownership/validation gate (source lines 26-55): parse the video
id, find and validate the JWT, fetch the record, and compare owners.
On success it yields the authenticated user and the fetched record. -/
def gateResult (env : Env) : Except Err (Nat × Video) :=
  match env.parsedVideoID with
  | none => .error .invalidVideoID
  | some _ =>
  match env.bearerToken with
  | none => .error .missingJWT
  | some _ =>
  match env.jwtUserID with
  | none => .error .invalidJWT
  | some userID =>
  match env.dbVideo with
  | none => .error .videoLookupFailed
  | some dbVideo =>
  if dbVideo.userID ≠ userID then .error .notOwner
  else .ok (userID, dbVideo)

/-- Form-field and content-type validation (source lines 57-76): the
form must contain the video part, its Content-Type header must parse,
and the parsed media type must be exactly `"video/mp4"`. -/
def contentTypeResult (env : Env) : Except Err String :=
  match env.contentTypeHeader with
  | none => .error .formFileMissing
  | some _ =>
  match env.parsedMediaType with
  | none => .error .mediaTypeUnparsable
  | some mediaType =>
  if mediaType ≠ "video/mp4" then .error .invalidFileType
  else .ok mediaType

/-- `handlerUploadVideo` (source lines 21-158). Every early `return`
is modelled by the corresponding `Outcome`; the `defer os.Remove` of
the staged file (line 84, argument evaluated at defer time) removes it
on every exit path past staging, and the `defer os.Remove` of the
processed file (line 112) exists only on paths where
`processVideoForFastStart` succeeded — a failed ffmpeg run's partial
output is never removed. -/
def handlerUploadVideo (cfg : ApiConfig) (env : Env) : Outcome :=
  match gateResult env with
  | .error e => ⟨.err e, [], []⟩
  | .ok (_, dbVideo) =>
  match contentTypeResult env with
  | .error e => ⟨.err e, [], []⟩
  | .ok _mediaType =>
  match env.tempPath with
  | none => ⟨.err .tempCreateFailed, [], []⟩
  | some tmpName =>
  if !env.copyOk then ⟨.err .copyFailed, [.tempCreate tmpName], []⟩
  else if !env.seekOk then ⟨.err .seekFailed, [.tempCreate tmpName], []⟩
  else
  match getVideoAspectRatio env.probe with
  | .error _ => ⟨.err .probeFailed, [.tempCreate tmpName, .ffprobeRun tmpName], []⟩
  | .ok aspectRatio =>
  if !env.ffmpegOk then
    ⟨.err .remuxFailed,
     [.tempCreate tmpName, .ffprobeRun tmpName, .ffmpegRun tmpName (processedPath tmpName)],
     if env.ffmpegPartialOnFail then [processedPath tmpName] else []⟩
  else
  if !env.openProcessedOk then
    ⟨.err .openProcessedFailed,
     [.tempCreate tmpName, .ffprobeRun tmpName, .ffmpegRun tmpName (processedPath tmpName)], []⟩
  else
  let objName := deriveObjectName aspectRatio env.randBytes
  if !env.putObjectOk then
    ⟨.err .uploadFailed,
     [.tempCreate tmpName, .ffprobeRun tmpName, .ffmpegRun tmpName (processedPath tmpName),
      .s3PutFail cfg.s3Bucket objName], []⟩
  else
  let videoURL := "https://" ++ cfg.s3Bucket ++ ".s3." ++ cfg.s3Region ++ ".amazonaws.com/" ++ objName
  let updated : Video := { dbVideo with videoURL := some videoURL }
  if !env.updateOk then
    ⟨.err .updateFailed,
     [.tempCreate tmpName, .ffprobeRun tmpName, .ffmpegRun tmpName (processedPath tmpName),
      .s3PutOk cfg.s3Bucket objName, .dbUpdate updated], []⟩
  else
  ⟨.ok updated,
   [.tempCreate tmpName, .ffprobeRun tmpName, .ffmpegRun tmpName (processedPath tmpName),
    .s3PutOk cfg.s3Bucket objName, .dbUpdate updated], []⟩

/-- Whether an event is the metadata-store update call. -/
def isDbUpdate : Event → Bool
  | .dbUpdate _ => true
  | _ => false

/-- Whether an event is a successful object-store put. -/
def isS3PutOk : Event → Bool
  | .s3PutOk _ _ => true
  | _ => false

/-- Whether an event is a failed object-store put. -/
def isS3PutFail : Event → Bool
  | .s3PutFail _ _ => true
  | _ => false

/-- `putBeforeUpdate l` holds when no metadata-store update occurs in
`l` before the first successful object-store put: walking the trace,
meeting a `dbUpdate` first refutes it, meeting an `s3PutOk` first
establishes it. -/
def putBeforeUpdate : List Event → Bool
  | [] => true
  | e :: rest =>
    if isDbUpdate e then false
    else if isS3PutOk e then true
    else putBeforeUpdate rest

theorem gateResult_err_not_payload (env : Env) (e : Err) (h : gateResult env = .error e) :
    isPayloadTooLargeErr e = false := by
  unfold gateResult at h
  repeat' split at h
  all_goals (try cases h)
  all_goals rfl

theorem contentTypeResult_err_not_payload (env : Env) (e : Err)
    (h : contentTypeResult env = .error e) : isPayloadTooLargeErr e = false := by
  unfold contentTypeResult at h
  repeat' split at h
  all_goals (try cases h)
  all_goals rfl

theorem ne_processedPath (t : String) : t ≠ processedPath t := by
  intro h
  have h2 := congrArg String.length h
  rw [processedPath, String.length_append] at h2
  have h3 : ".processing".length = 11 := rfl
  omega

theorem handler_cases (cfg : ApiConfig) (env : Env) :
    (∃ e, isPayloadTooLargeErr e = false ∧ handlerUploadVideo cfg env = ⟨.err e, [], []⟩) ∨
    (∃ t e, env.tempPath = some t ∧ (e = Err.copyFailed ∨ e = Err.seekFailed) ∧
      handlerUploadVideo cfg env = ⟨.err e, [.tempCreate t], []⟩) ∨
    (∃ t, env.tempPath = some t ∧
      handlerUploadVideo cfg env = ⟨.err .probeFailed, [.tempCreate t, .ffprobeRun t], []⟩) ∨
    (∃ t, env.tempPath = some t ∧ env.ffmpegOk = false ∧
      handlerUploadVideo cfg env = ⟨.err .remuxFailed,
        [.tempCreate t, .ffprobeRun t, .ffmpegRun t (processedPath t)],
        if env.ffmpegPartialOnFail then [processedPath t] else []⟩) ∨
    (∃ t, env.tempPath = some t ∧
      handlerUploadVideo cfg env = ⟨.err .openProcessedFailed,
        [.tempCreate t, .ffprobeRun t, .ffmpegRun t (processedPath t)], []⟩) ∨
    (∃ t c, env.tempPath = some t ∧ env.putObjectOk = false ∧
      handlerUploadVideo cfg env = ⟨.err .uploadFailed,
        [.tempCreate t, .ffprobeRun t, .ffmpegRun t (processedPath t),
         .s3PutFail cfg.s3Bucket (deriveObjectName c env.randBytes)], []⟩) ∨
    (∃ t c v r, env.tempPath = some t ∧ env.putObjectOk = true ∧
      (r = Response.err .updateFailed ∨ r = Response.ok v) ∧
      handlerUploadVideo cfg env = ⟨r,
        [.tempCreate t, .ffprobeRun t, .ffmpegRun t (processedPath t),
         .s3PutOk cfg.s3Bucket (deriveObjectName c env.randBytes), .dbUpdate v], []⟩) := by
  rcases hg : gateResult env with e | p
  · exact Or.inl ⟨e, gateResult_err_not_payload env e hg, by simp [handlerUploadVideo, hg]⟩
  rcases hc : contentTypeResult env with e | mt
  · exact Or.inl ⟨e, contentTypeResult_err_not_payload env e hc,
      by simp [handlerUploadVideo, hg, hc]⟩
  rcases ht : env.tempPath with _ | t
  · exact Or.inl ⟨.tempCreateFailed, rfl, by simp [handlerUploadVideo, hg, hc, ht]⟩
  cases hcp : env.copyOk with
  | false => exact Or.inr (Or.inl ⟨t, .copyFailed, rfl, Or.inl rfl,
      by simp [handlerUploadVideo, hg, hc, ht, hcp]⟩)
  | true =>
  cases hsk : env.seekOk with
  | false => exact Or.inr (Or.inl ⟨t, .seekFailed, rfl, Or.inr rfl,
      by simp [handlerUploadVideo, hg, hc, ht, hcp, hsk]⟩)
  | true =>
  rcases hpb : getVideoAspectRatio env.probe with pe | ar
  · exact Or.inr (Or.inr (Or.inl ⟨t, rfl,
      by simp [handlerUploadVideo, hg, hc, ht, hcp, hsk, hpb]⟩))
  cases hfo : env.ffmpegOk with
  | false => exact Or.inr (Or.inr (Or.inr (Or.inl ⟨t, rfl, rfl,
      by simp [handlerUploadVideo, hg, hc, ht, hcp, hsk, hpb, hfo]⟩)))
  | true =>
  cases hop : env.openProcessedOk with
  | false => exact Or.inr (Or.inr (Or.inr (Or.inr (Or.inl ⟨t, rfl,
      by simp [handlerUploadVideo, hg, hc, ht, hcp, hsk, hpb, hfo, hop]⟩))))
  | true =>
  cases hpo : env.putObjectOk with
  | false => exact Or.inr (Or.inr (Or.inr (Or.inr (Or.inr (Or.inl ⟨t, ar, rfl, rfl,
      by simp [handlerUploadVideo, hg, hc, ht, hcp, hsk, hpb, hfo, hop, hpo]⟩)))))
  | true =>
  cases huo : env.updateOk with
  | false => exact Or.inr (Or.inr (Or.inr (Or.inr (Or.inr (Or.inr ⟨t, ar,
      { p.2 with videoURL := some ("https://" ++ cfg.s3Bucket ++ ".s3." ++ cfg.s3Region ++
          ".amazonaws.com/" ++ deriveObjectName ar env.randBytes) },
      Response.err .updateFailed, rfl, rfl, Or.inl rfl,
      by simp [handlerUploadVideo, hg, hc, ht, hcp, hsk, hpb, hfo, hop, hpo, huo]⟩)))))
  | true => exact Or.inr (Or.inr (Or.inr (Or.inr (Or.inr (Or.inr ⟨t, ar,
      { p.2 with videoURL := some ("https://" ++ cfg.s3Bucket ++ ".s3." ++ cfg.s3Region ++
          ".amazonaws.com/" ++ deriveObjectName ar env.randBytes) },
      Response.ok ({ p.2 with videoURL := some ("https://" ++ cfg.s3Bucket ++ ".s3." ++
          cfg.s3Region ++ ".amazonaws.com/" ++ deriveObjectName ar env.randBytes) }),
      rfl, rfl, Or.inr rfl,
      by simp [handlerUploadVideo, hg, hc, ht, hcp, hsk, hpb, hfo, hop, hpo, huo]⟩)))))

theorem classifyAspect_char (w h : Int) (hne : h ≠ 0) :
    classifyAspect w h =
      (if (177/100 : ℚ) < (w : ℚ) / (h : ℚ) ∧ ((w : ℚ) / (h : ℚ)) < 178/100 then "16:9"
       else if (56/100 : ℚ) < (w : ℚ) / (h : ℚ) ∧ ((w : ℚ) / (h : ℚ)) < 57/100 then "9:16"
       else "other") := by
  have hfin : f32Div w h = FVal.fin ((w : ℚ) / (h : ℚ)) := by simp [f32Div, hne]
  simp only [classifyAspect, hfin, qLtF, fLtQ, Bool.and_eq_true, decide_eq_true_eq]

/-- C4: aspect-ratio classification is a deterministic total function of
(width, height) with positive height: the quotient width/height lands in
the landscape category `"16:9"` exactly when it lies in the open
interval (1.77, 1.78), in the portrait category `"9:16"` exactly when it
lies in (0.56, 0.57), and in `"other"` otherwise; a quotient of exactly
1.775 is landscape and a quotient of exactly 1.78 is `"other"` (the
boundary is exclusive). `float32` arithmetic is idealized as exact
rational arithmetic. -/
theorem classification_bands (w h : Int) (hh : 0 < h) :
    (classifyAspect w h = "16:9" ↔
      (177/100 : ℚ) < (w : ℚ) / (h : ℚ) ∧ ((w : ℚ) / (h : ℚ)) < 178/100) ∧
    (classifyAspect w h = "9:16" ↔
      (56/100 : ℚ) < (w : ℚ) / (h : ℚ) ∧ ((w : ℚ) / (h : ℚ)) < 57/100) ∧
    (classifyAspect w h = "16:9" ∨ classifyAspect w h = "9:16" ∨
      classifyAspect w h = "other") ∧
    ((w : ℚ) / (h : ℚ) = 1775/1000 → classifyAspect w h = "16:9") ∧
    ((w : ℚ) / (h : ℚ) = 178/100 → classifyAspect w h = "other") := by
  rw [classifyAspect_char w h (ne_of_gt hh)]
  set r : ℚ := (w : ℚ) / (h : ℚ) with hr
  by_cases h1 : (177/100 : ℚ) < r ∧ r < 178/100
  · have h2 : ¬((56/100 : ℚ) < r ∧ r < 57/100) := by
      rintro ⟨-, hy⟩
      linarith [h1.1]
    refine ⟨by simp [h1], by simp [h1, h2], by simp [h1], fun _ => by simp [h1],
      fun heq => ?_⟩
    rw [heq] at h1
    exact absurd h1.2 (by norm_num)
  · by_cases h2 : (56/100 : ℚ) < r ∧ r < 57/100
    · refine ⟨by simp [h1, h2], by simp [h1, h2], by simp [h1, h2],
        fun heq => ?_, fun heq => ?_⟩
      · rw [heq] at h2
        exact absurd h2.2 (by norm_num)
      · rw [heq] at h2
        exact absurd h2.2 (by norm_num)
    · refine ⟨by simp [h1, h2], by simp [h1, h2], by simp [h1, h2],
        fun heq => ?_, fun _ => by simp [h1, h2]⟩
      exact absurd (by rw [heq]; constructor <;> norm_num) h1

/-- C4 witness: a 1280x720 stream has quotient 16/9, inside (1.77, 1.78),
and classifies as landscape. -/
theorem classification_bands_witness :
    (0 : Int) < 720 ∧ classifyAspect 1280 720 = "16:9" :=
  ⟨by decide, (classification_bands 1280 720 (by decide)).1.mpr (by norm_num)⟩

/-- C10: a probed first stream with height 0 (as when the fields are
absent and default to 0) does not crash classification: the IEEE-754
quotient is non-finite, falls outside both bands, and the stream is
classified `"other"`; and for any parse-able output with at least one
stream, the prober returns a classification, never an error. -/
theorem zero_height_classifies_other :
    (∀ (w : Int) (rest : List StreamDim),
      getVideoAspectRatio (.streams (⟨w, 0⟩ :: rest)) = .ok "other") ∧
    (∀ (s : StreamDim) (rest : List StreamDim),
      getVideoAspectRatio (.streams (s :: rest)) = .ok (classifyAspect s.width s.height)) := by
  constructor
  · intro w rest
    have h0 : f32Div w 0 = .pinf ∨ f32Div w 0 = .ninf ∨ f32Div w 0 = .nan := by
      unfold f32Div
      rcases lt_trichotomy 0 w with h | h | h
      · left; simp [h]
      · right; right; simp [← h]
      · right; left; simp [h, lt_asymm h]
    rcases h0 with h | h | h <;>
      simp [getVideoAspectRatio, classifyAspect, h, qLtF, fLtQ]
  · intro s rest
    rfl

/-- C1: when the caller authenticates (a user id was resolved from the
JWT) but does not own the target record, the handler stops at the
ownership gate: the response is the not-owner failure (the spec's
`Forbidden`; the code responds HTTP 401 "Video not owned by user"), the
event trace is empty — no temporary file, no subprocess, no object-store
put, no metadata update — and no file is left behind. -/
theorem non_owner_rejected_no_writes (cfg : ApiConfig) (env : Env) (vid uid : Nat)
    (tok : String) (v : Video)
    (hv : env.parsedVideoID = some vid) (ht : env.bearerToken = some tok)
    (hu : env.jwtUserID = some uid) (hd : env.dbVideo = some v)
    (hown : v.userID ≠ uid) :
    handlerUploadVideo cfg env = ⟨.err .notOwner, [], []⟩ ∧
    httpStatus .notOwner = 401 := by
  have hg : gateResult env = .error .notOwner := by
    simp [gateResult, hv, ht, hu, hd, hown]
  exact ⟨by simp [handlerUploadVideo, hg], rfl⟩

/-- C1 witness: a concrete non-owner request (record owned by user 3,
caller authenticated as user 2) performs zero writes. -/
theorem non_owner_rejected_no_writes_witness :
    handlerUploadVideo ⟨"bkt", "reg"⟩
      ⟨some 1, some "tok", some 2, some ⟨1, 3, none, none⟩, 0, some "video/mp4",
       some "video/mp4", some "tmp", true, true, .streams [⟨0, 0⟩], true, false, true,
       [0], true, true⟩ = ⟨.err .notOwner, [], []⟩ ∧
    httpStatus .notOwner = 401 :=
  non_owner_rejected_no_writes _ _ 1 2 "tok" ⟨1, 3, none, none⟩ rfl rfl rfl rfl
    (by decide)

/-- C6: a request that passes the gate but declares a media type other
than `"video/mp4"` fails with the invalid-file-type response (the spec's
`UnsupportedMediaType`) with an empty event trace: no bytes are staged
to a temporary file and nothing else happens. -/
theorem reject_non_mp4_before_staging (cfg : ApiConfig) (env : Env) (p : Nat × Video)
    (hdr mt : String)
    (hg : gateResult env = .ok p)
    (hh : env.contentTypeHeader = some hdr)
    (hm : env.parsedMediaType = some mt)
    (hne : mt ≠ "video/mp4") :
    handlerUploadVideo cfg env = ⟨.err .invalidFileType, [], []⟩ := by
  have hc : contentTypeResult env = .error .invalidFileType := by
    simp [contentTypeResult, hh, hm, hne]
  simp [handlerUploadVideo, hg, hc]

/-- C6 witness: an owner upload declaring `video/webm` is rejected with
no staging (the spec's end-to-end scenario C). -/
theorem reject_non_mp4_before_staging_witness :
    handlerUploadVideo ⟨"bkt", "reg"⟩
      ⟨some 1, some "tok", some 2, some ⟨1, 2, none, none⟩, 0, some "video/webm",
       some "video/webm", some "tmp", true, true, .streams [⟨0, 0⟩], true, false, true,
       [0], true, true⟩ = ⟨.err .invalidFileType, [], []⟩ :=
  reject_non_mp4_before_staging _ _ (2, ⟨1, 2, none, none⟩) "video/webm" "video/webm"
    rfl rfl rfl (by decide)

/-- C3: the code enforces no payload size limit at all. The `maxMemory`
constant is `10 << 30` (10 GiB), not the 1 GiB its comment announces,
and the `http.MaxBytesReader` return value is discarded, so the handler
is oblivious to the body size (changing it never changes the outcome)
and no input is ever rejected with the spec's `PayloadTooLarge`. -/
theorem no_payload_size_limit :
    maxMemory = 10 * 2 ^ 30 ∧
    1 <<< 30 < maxMemory ∧
    (∀ (cfg : ApiConfig) (env : Env) (n : Nat),
      handlerUploadVideo cfg { env with bodySize := n } = handlerUploadVideo cfg env) ∧
    (∀ (cfg : ApiConfig) (env : Env),
      isPayloadTooLargeResp (handlerUploadVideo cfg env).response = false) := by
  refine ⟨by norm_num [maxMemory, Nat.shiftLeft_eq], by norm_num [maxMemory, Nat.shiftLeft_eq],
    ?_, ?_⟩
  · intro cfg env n
    cases env
    rfl
  · intro cfg env
    have hresp : ∀ e : Err, isPayloadTooLargeResp (.err e) = isPayloadTooLargeErr e := by
      intro e
      cases e <;> rfl
    rcases handler_cases cfg env with ⟨e, he, hout⟩ | ⟨t, e, _, he, hout⟩ | ⟨t, _, hout⟩
      | ⟨t, _, _, hout⟩ | ⟨t, _, hout⟩ | ⟨t, c, _, _, hout⟩ | ⟨t, c, v, r, _, _, hr, hout⟩
    · rw [hout, hresp]; exact he
    · rcases he with he | he <;> subst he <;> rw [hout] <;> rfl
    · rw [hout]; rfl
    · rw [hout]; rfl
    · rw [hout]; rfl
    · rw [hout]; rfl
    · rcases hr with hr | hr <;> subst hr <;> rw [hout] <;> rfl

/-- C2: on every request the object-store write strictly precedes the
metadata-store write — no `dbUpdate` event ever occurs before the first
successful `s3PutOk` event — and when the put fails the handler aborts
with the upload failure (the spec's `UploadFailed`) and performs no
metadata update at all. -/
theorem put_precedes_metadata_update (cfg : ApiConfig) (env : Env) :
    putBeforeUpdate (handlerUploadVideo cfg env).events = true ∧
    (env.putObjectOk = false →
      (handlerUploadVideo cfg env).events.all (fun e => !isDbUpdate e) = true ∧
      ((handlerUploadVideo cfg env).events.any isS3PutFail = true →
        (handlerUploadVideo cfg env).response = .err .uploadFailed)) := by
  rcases handler_cases cfg env with ⟨e, _, hout⟩ | ⟨t, e, _, he, hout⟩ | ⟨t, _, hout⟩
    | ⟨t, _, hfo, hout⟩ | ⟨t, _, hout⟩ | ⟨t, c, _, hpo, hout⟩
    | ⟨t, c, v, r, _, hpo, hr, hout⟩ <;>
    simp_all [putBeforeUpdate, isDbUpdate, isS3PutOk, isS3PutFail]

/-- C2 witness: a concrete request whose object-store put fails ends in
the upload failure with no metadata update, and its trace satisfies the
ordering check. -/
theorem put_precedes_metadata_update_witness :
    putBeforeUpdate (handlerUploadVideo ⟨"bkt", "reg"⟩
      ⟨some 1, some "tok", some 2, some ⟨1, 2, none, none⟩, 0, some "video/mp4",
       some "video/mp4", some "tmp", true, true, .streams [⟨0, 0⟩], true, false, true,
       [0], false, true⟩).events = true ∧
    ((handlerUploadVideo ⟨"bkt", "reg"⟩
      ⟨some 1, some "tok", some 2, some ⟨1, 2, none, none⟩, 0, some "video/mp4",
       some "video/mp4", some "tmp", true, true, .streams [⟨0, 0⟩], true, false, true,
       [0], false, true⟩).events.all (fun e => !isDbUpdate e) = true ∧
    (handlerUploadVideo ⟨"bkt", "reg"⟩
      ⟨some 1, some "tok", some 2, some ⟨1, 2, none, none⟩, 0, some "video/mp4",
       some "video/mp4", some "tmp", true, true, .streams [⟨0, 0⟩], true, false, true,
       [0], false, true⟩).response = .err .uploadFailed) :=
  ⟨(put_precedes_metadata_update _ _).1,
   ((put_precedes_metadata_update _ _).2 rfl).1,
   ((put_precedes_metadata_update _ _).2 rfl).2 (by rfl)⟩

/-- C5 counterexample: a request whose remux step fails after ffmpeg has
created a partial output file leaves that partial file on disk — the
pipeline run does not end with zero temporary files, refuting the claim
as stated. -/
theorem cleanup_counterexample :
    (handlerUploadVideo ⟨"bkt", "reg"⟩
      ⟨some 1, some "tok", some 2, some ⟨1, 2, none, none⟩, 0, some "video/mp4",
       some "video/mp4", some "tmp", true, true, .streams [⟨0, 0⟩], false, true, true,
       [0], true, true⟩).filesLeft = ["tmp.processing"] := by
  rfl

/-- C5 (amended): every pipeline run removes the staged input file, and
every run except a failed remux that left partial output ends with zero
temporary files; in exactly that remaining case the partial remux output
file — and only it — survives, because the deferred removal of the
processed path is registered only after `processVideoForFastStart`
succeeds. -/
theorem cleanup_except_partial_remux (cfg : ApiConfig) (env : Env) :
    ((env.ffmpegOk = true ∨ env.ffmpegPartialOnFail = false) →
      (handlerUploadVideo cfg env).filesLeft = []) ∧
    (∀ t, env.tempPath = some t →
      (handlerUploadVideo cfg env).filesLeft.contains t = false) ∧
    ((handlerUploadVideo cfg env).filesLeft = [] ∨
      ∃ t, env.tempPath = some t ∧ env.ffmpegOk = false ∧
        env.ffmpegPartialOnFail = true ∧
        (handlerUploadVideo cfg env).filesLeft = [processedPath t]) := by
  rcases handler_cases cfg env with ⟨e, _, hout⟩ | ⟨t, e, ht, _, hout⟩ | ⟨t, ht, hout⟩
    | ⟨t, ht, hfo, hout⟩ | ⟨t, ht, hout⟩ | ⟨t, c, ht, _, hout⟩
    | ⟨t, c, v, r, ht, _, _, hout⟩
  · exact ⟨fun _ => by rw [hout], fun t' _ => by rw [hout]; rfl, Or.inl (by rw [hout])⟩
  · exact ⟨fun _ => by rw [hout], fun t' _ => by rw [hout]; rfl, Or.inl (by rw [hout])⟩
  · exact ⟨fun _ => by rw [hout], fun t' _ => by rw [hout]; rfl, Or.inl (by rw [hout])⟩
  · by_cases hfp : env.ffmpegPartialOnFail = true
    · refine ⟨fun hyp => ?_, fun t' ht' => ?_,
        Or.inr ⟨t, ht, hfo, hfp, by rw [hout]; simp [hfp]⟩⟩
      · rcases hyp with hyp | hyp
        · rw [hyp] at hfo; cases hfo
        · rw [hyp] at hfp; cases hfp
      · rw [ht'] at ht
        have htt : t' = t := Option.some.inj ht
        subst htt
        rw [hout]
        simp [hfp, List.contains, List.elem]
        exact ne_processedPath t'
    · refine ⟨fun _ => by rw [hout]; simp [hfp], fun t' _ => by rw [hout]; simp [hfp],
        Or.inl (by rw [hout]; simp [hfp])⟩
  · exact ⟨fun _ => by rw [hout], fun t' _ => by rw [hout]; rfl, Or.inl (by rw [hout])⟩
  · exact ⟨fun _ => by rw [hout], fun t' _ => by rw [hout]; rfl, Or.inl (by rw [hout])⟩
  · exact ⟨fun _ => by rw [hout], fun t' _ => by rw [hout]; rfl, Or.inl (by rw [hout])⟩

/-- C5 witness for the amended claim: a fully successful concrete run
ends with zero temporary files and in particular without the staged
file `"tmp"`. -/
theorem cleanup_except_partial_remux_witness :
    (handlerUploadVideo ⟨"bkt", "reg"⟩
      ⟨some 1, some "tok", some 2, some ⟨1, 2, none, none⟩, 0, some "video/mp4",
       some "video/mp4", some "tmp", true, true, .streams [⟨0, 0⟩], true, false, true,
       [0], true, true⟩).filesLeft = [] ∧
    (handlerUploadVideo ⟨"bkt", "reg"⟩
      ⟨some 1, some "tok", some 2, some ⟨1, 2, none, none⟩, 0, some "video/mp4",
       some "video/mp4", some "tmp", true, true, .streams [⟨0, 0⟩], true, false, true,
       [0], true, true⟩).filesLeft.contains "tmp" = false :=
  ⟨(cleanup_except_partial_remux _ _).1 (Or.inl rfl),
   (cleanup_except_partial_remux _ _).2.1 "tmp" rfl⟩

/-- C8: the prober fails exactly when the external tool cannot run or
exits non-zero, when its output cannot be unmarshalled, or when it
reports zero streams; and a request that reaches the probe with a
zero-streams report ends with the probe failure (the spec's
`ProbeFailed`), the staged temporary file removed, and no metadata
update (the trace holds only the staging and probe events). -/
theorem probe_failure_modes (cfg : ApiConfig) (env : Env) :
    (∀ p, (∃ e, getVideoAspectRatio p = .error e) ↔
      (p = .runFail ∨ p = .badOutput ∨ p = .streams [])) ∧
    (∀ (uid : Nat) (v : Video) (mt t : String),
      gateResult env = .ok (uid, v) → contentTypeResult env = .ok mt →
      env.tempPath = some t → env.copyOk = true → env.seekOk = true →
      env.probe = .streams [] →
      handlerUploadVideo cfg env =
        ⟨.err .probeFailed, [.tempCreate t, .ffprobeRun t], []⟩) := by
  constructor
  · intro p
    constructor
    · rintro ⟨e, he⟩
      cases p with
      | runFail => exact Or.inl rfl
      | badOutput => exact Or.inr (Or.inl rfl)
      | streams l =>
        cases l with
        | nil => exact Or.inr (Or.inr rfl)
        | cons s rest => simp [getVideoAspectRatio] at he
    · rintro (h | h | h) <;> subst h
      · exact ⟨.execErr, rfl⟩
      · exact ⟨.unmarshalErr, rfl⟩
      · exact ⟨.noStreams, rfl⟩
  · intro uid v mt t hg hc ht hcp hsk hpr
    have hpb : getVideoAspectRatio env.probe = .error .noStreams := by
      rw [hpr]
      rfl
    simp [handlerUploadVideo, hg, hc, ht, hcp, hsk, hpb]

/-- C8 witness: a concrete zero-streams probe report ends the request
with the probe failure and only the staging and probe events, and a
failed probe run is indeed an error of the prober. -/
theorem probe_failure_modes_witness :
    handlerUploadVideo ⟨"bkt", "reg"⟩
      ⟨some 1, some "tok", some 2, some ⟨1, 2, none, none⟩, 0, some "video/mp4",
       some "video/mp4", some "tmp", true, true, .streams [], true, false, true,
       [0], true, true⟩ =
      ⟨.err .probeFailed, [.tempCreate "tmp", .ffprobeRun "tmp"], []⟩ ∧
    (∃ e, getVideoAspectRatio .runFail = .error e) :=
  ⟨(probe_failure_modes ⟨"bkt", "reg"⟩ _).2 2 ⟨1, 2, none, none⟩ "video/mp4" "tmp"
      rfl rfl rfl rfl rfl rfl,
   ((probe_failure_modes ⟨"bkt", "reg"⟩
      ⟨some 1, some "tok", some 2, some ⟨1, 2, none, none⟩, 0, some "video/mp4",
       some "video/mp4", some "tmp", true, true, .streams [], true, false, true,
       [0], true, true⟩).1 .runFail).mpr (Or.inl rfl)⟩

/-- C7: for every classification string and byte sequence, the derived
object key is one of the three path segments `landscape/`, `portrait/`,
`other/` — `16:9` giving landscape, `9:16` giving portrait, anything
else giving other — followed by the URL-safe base64 encoding of the
bytes and the fixed `.mp4` extension; the segments are mutually
exclusive, so a key decomposes under exactly one of them. Key
derivation is a function of the classification and the random bytes
only; it never sees file contents. -/
theorem object_key_shape (c : String) (k : List Nat) :
    (deriveObjectName c k = "landscape/" ++ base64RawURLEncode k ++ "." ++ fileExt ∨
     deriveObjectName c k = "portrait/" ++ base64RawURLEncode k ++ "." ++ fileExt ∨
     deriveObjectName c k = "other/" ++ base64RawURLEncode k ++ "." ++ fileExt) ∧
    (c = "16:9" →
      deriveObjectName c k = "landscape/" ++ base64RawURLEncode k ++ "." ++ fileExt) ∧
    (c = "9:16" →
      deriveObjectName c k = "portrait/" ++ base64RawURLEncode k ++ "." ++ fileExt) ∧
    (c ≠ "16:9" → c ≠ "9:16" →
      deriveObjectName c k = "other/" ++ base64RawURLEncode k ++ "." ++ fileExt) ∧
    "." ++ fileExt = ".mp4" ∧
    (∀ s1 s2 r1 r2 : String,
      (s1 = "landscape/" ∨ s1 = "portrait/" ∨ s1 = "other/") →
      (s2 = "landscape/" ∨ s2 = "portrait/" ∨ s2 = "other/") →
      s1 ++ r1 = s2 ++ r2 → s1 = s2) := by
  refine ⟨?_, ?_, ?_, ?_, rfl, ?_⟩
  · by_cases h1 : c = "16:9"
    · left
      simp [deriveObjectName, h1]
    · by_cases h2 : c = "9:16"
      · right; left
        simp [deriveObjectName, h1, h2]
      · right; right
        simp [deriveObjectName, h1, h2]
  · intro h
    simp [deriveObjectName, h]
  · intro h
    simp [deriveObjectName, h]
  · intro h1 h2
    simp [deriveObjectName, h1, h2]
  · intro s1 s2 r1 r2 hs1 hs2 heq
    rcases hs1 with h | h | h <;> rcases hs2 with h' | h' | h' <;> subst h <;> subst h' <;>
      first
        | rfl
        | (exfalso
           have hd := congrArg String.data heq
           simp [String.data_append] at hd)

/-- C7 witness: the `16:9` classification with the one-byte sequence
`[0]` produces the landscape-prefixed key with the `.mp4` extension. -/
theorem object_key_shape_witness :
    deriveObjectName "16:9" [0] =
      "landscape/" ++ base64RawURLEncode [0] ++ "." ++ fileExt ∧
    "." ++ fileExt = ".mp4" :=
  ⟨(object_key_shape "16:9" [0]).2.1 rfl, (object_key_shape "16:9" [0]).2.2.2.2.1⟩

theorem gateResult_ok_dbVideo (env : Env) (p : Nat × Video)
    (h : gateResult env = .ok p) : env.dbVideo = some p.2 := by
  unfold gateResult at h
  repeat' split at h
  all_goals cases h
  assumption

/-- C9: on every successful run — whatever the probed dimensions and
classification — the record's video-location URL is set to exactly
`https://<bucket>.s3.<region>.amazonaws.com/<key>` where `<key>` is the
object key derived from the probe's classification and the random
bytes, the updated record is both the one sent to the metadata store
and the one returned to the caller, and the trace ends with the put
followed by the update; moreover a 1280x720 probe classifies `"16:9"`,
whose derived key is `landscape/<base64url bytes>.mp4`. -/
theorem success_sets_s3_url (cfg : ApiConfig) (env : Env) (v : Video)
    (hok : (handlerUploadVideo cfg env).response = .ok v) :
    (∃ (v0 : Video) (ar t : String),
      env.dbVideo = some v0 ∧
      getVideoAspectRatio env.probe = .ok ar ∧
      env.tempPath = some t ∧
      v = { v0 with videoURL := some ("https://" ++ cfg.s3Bucket ++ ".s3." ++
              cfg.s3Region ++ ".amazonaws.com/" ++ deriveObjectName ar env.randBytes) } ∧
      handlerUploadVideo cfg env = ⟨.ok v,
        [.tempCreate t, .ffprobeRun t, .ffmpegRun t (processedPath t),
         .s3PutOk cfg.s3Bucket (deriveObjectName ar env.randBytes), .dbUpdate v], []⟩) ∧
    "." ++ fileExt = ".mp4" ∧
    (env.probe = .streams [⟨1280, 720⟩] →
      getVideoAspectRatio env.probe = .ok "16:9" ∧
      deriveObjectName "16:9" env.randBytes =
        "landscape/" ++ base64RawURLEncode env.randBytes ++ "." ++ fileExt) := by
  have hcl : classifyAspect 1280 720 = "16:9" := by
    rw [classifyAspect_char 1280 720 (by decide)]
    norm_num
  rcases hg : gateResult env with e | p
  · simp [handlerUploadVideo, hg] at hok
  rcases hc : contentTypeResult env with e | mt
  · simp [handlerUploadVideo, hg, hc] at hok
  rcases ht : env.tempPath with _ | t
  · simp [handlerUploadVideo, hg, hc, ht] at hok
  cases hcp : env.copyOk with
  | false => simp [handlerUploadVideo, hg, hc, ht, hcp] at hok
  | true =>
  cases hsk : env.seekOk with
  | false => simp [handlerUploadVideo, hg, hc, ht, hcp, hsk] at hok
  | true =>
  rcases hpb : getVideoAspectRatio env.probe with pe | ar
  · simp [handlerUploadVideo, hg, hc, ht, hcp, hsk, hpb] at hok
  cases hfo : env.ffmpegOk with
  | false => simp [handlerUploadVideo, hg, hc, ht, hcp, hsk, hpb, hfo] at hok
  | true =>
  cases hop : env.openProcessedOk with
  | false => simp [handlerUploadVideo, hg, hc, ht, hcp, hsk, hpb, hfo, hop] at hok
  | true =>
  cases hpo : env.putObjectOk with
  | false => simp [handlerUploadVideo, hg, hc, ht, hcp, hsk, hpb, hfo, hop, hpo] at hok
  | true =>
  cases huo : env.updateOk with
  | false => simp [handlerUploadVideo, hg, hc, ht, hcp, hsk, hpb, hfo, hop, hpo, huo] at hok
  | true =>
  have hfull : handlerUploadVideo cfg env = ⟨.ok { p.2 with videoURL := some ("https://" ++
        cfg.s3Bucket ++ ".s3." ++ cfg.s3Region ++ ".amazonaws.com/" ++
        deriveObjectName ar env.randBytes) },
      [.tempCreate t, .ffprobeRun t, .ffmpegRun t (processedPath t),
       .s3PutOk cfg.s3Bucket (deriveObjectName ar env.randBytes),
       .dbUpdate { p.2 with videoURL := some ("https://" ++
        cfg.s3Bucket ++ ".s3." ++ cfg.s3Region ++ ".amazonaws.com/" ++
        deriveObjectName ar env.randBytes) }], []⟩ := by
    simp [handlerUploadVideo, hg, hc, ht, hcp, hsk, hpb, hfo, hop, hpo, huo]
  rw [hfull] at hok
  cases hok
  refine ⟨⟨p.2, ar, t, gateResult_ok_dbVideo env p hg, rfl, rfl, rfl, hfull⟩, rfl,
    fun hpr => ?_⟩
  have h1619 : getVideoAspectRatio (ProbeOutcome.streams [⟨1280, 720⟩]) = .ok "16:9" := by
    simp [getVideoAspectRatio, hcl]
  rw [hpr] at hpb
  rw [h1619] at hpb
  have har : ar = "16:9" := (Except.ok.inj hpb).symm
  subst har
  exact ⟨rfl, by simp [deriveObjectName]⟩

/-- C9 witness: a concrete fully successful owner upload (probed
dimensions 0x0, classification `"other"`): the response is the updated
record, whose URL is the bucket/region/key formula. -/
theorem success_sets_s3_url_witness :
    (handlerUploadVideo ⟨"bkt", "reg"⟩
      ⟨some 1, some "tok", some 2, some ⟨1, 2, none, none⟩, 0, some "video/mp4",
       some "video/mp4", some "tmp", true, true, .streams [⟨0, 0⟩], true, false, true,
       [0], true, true⟩).response =
      .ok ⟨1, 2, some ("https://" ++ "bkt" ++ ".s3." ++ "reg" ++ ".amazonaws.com/" ++
        deriveObjectName "other" [0]), none⟩ ∧
    (∃ (v0 : Video) (ar t : String),
      (⟨some 1, some "tok", some 2, some ⟨1, 2, none, none⟩, 0, some "video/mp4",
        some "video/mp4", some "tmp", true, true, .streams [⟨0, 0⟩], true, false, true,
        [0], true, true⟩ : Env).dbVideo = some v0 ∧
      getVideoAspectRatio (ProbeOutcome.streams [⟨0, 0⟩]) = .ok ar ∧
      (some "tmp" : Option String) = some t ∧
      (⟨1, 2, some ("https://" ++ "bkt" ++ ".s3." ++ "reg" ++ ".amazonaws.com/" ++
          deriveObjectName "other" [0]), none⟩ : Video) =
        { v0 with videoURL := some ("https://" ++ "bkt" ++ ".s3." ++ "reg" ++
            ".amazonaws.com/" ++ deriveObjectName ar [0]) } ∧
      handlerUploadVideo ⟨"bkt", "reg"⟩
        ⟨some 1, some "tok", some 2, some ⟨1, 2, none, none⟩, 0, some "video/mp4",
         some "video/mp4", some "tmp", true, true, .streams [⟨0, 0⟩], true, false, true,
         [0], true, true⟩ =
        ⟨.ok ⟨1, 2, some ("https://" ++ "bkt" ++ ".s3." ++ "reg" ++ ".amazonaws.com/" ++
            deriveObjectName "other" [0]), none⟩,
         [.tempCreate t, .ffprobeRun t, .ffmpegRun t (processedPath t),
          .s3PutOk "bkt" (deriveObjectName ar [0]),
          .dbUpdate ⟨1, 2, some ("https://" ++ "bkt" ++ ".s3." ++ "reg" ++
            ".amazonaws.com/" ++ deriveObjectName "other" [0]), none⟩], []⟩) ∧
    "." ++ fileExt = ".mp4" := by
  have h0 : (handlerUploadVideo ⟨"bkt", "reg"⟩
      ⟨some 1, some "tok", some 2, some ⟨1, 2, none, none⟩, 0, some "video/mp4",
       some "video/mp4", some "tmp", true, true, .streams [⟨0, 0⟩], true, false, true,
       [0], true, true⟩).response =
      .ok ⟨1, 2, some ("https://" ++ "bkt" ++ ".s3." ++ "reg" ++ ".amazonaws.com/" ++
        deriveObjectName "other" [0]), none⟩ := by rfl
  have h := success_sets_s3_url ⟨"bkt", "reg"⟩
    ⟨some 1, some "tok", some 2, some ⟨1, 2, none, none⟩, 0, some "video/mp4",
     some "video/mp4", some "tmp", true, true, .streams [⟨0, 0⟩], true, false, true,
     [0], true, true⟩
    ⟨1, 2, some ("https://" ++ "bkt" ++ ".s3." ++ "reg" ++ ".amazonaws.com/" ++
      deriveObjectName "other" [0]), none⟩ h0
  exact ⟨h0, h.1, h.2.1⟩
